import Mathlib

/-!
Shallow embedding of the SIWE (Sign-In with Ethereum) extension for
Scaffold-ETH 2: the session data model (`utils/siwe.ts`), the API routes
(`app/api/siwe/nonce/route.ts`, `app/api/siwe/verify/route.ts`,
`app/api/siwe/session/route.ts`) and the client hook (`hooks/useSiwe.ts`).

Conventions of the embedding:
* `undefined` / absent JavaScript values are `none`; JavaScript truthiness
  of strings and numbers is made explicit (`strTruthy`, `natTruthy`).
* Times are Unix-epoch milliseconds modelled as `Nat`.
* External effects (cookie load, random nonce generation, message parsing
  by viem, the cryptographic signature check) are passed in as explicit
  parameters so that every route is a pure function from its inputs and
  the stored session to a response and the session state after the call.
-/

set_option maxHeartbeats 1000000

namespace ScaffoldSiwe

/-- The data stored in a SIWE session, mirroring the TypeScript interface
`SiweSessionData` in `utils/siwe.ts`.  Optional fields that may be
`undefined` in TypeScript are `Option`s here. -/
structure SiweSessionData where
  address : Option String
  chainId : Option Nat
  nonce : Option String
  isLoggedIn : Bool
  signedInAt : Option Nat
deriving Repr, DecidableEq

/-- `defaultSession` from `utils/siwe.ts`: the unauthenticated default
session (`{ isLoggedIn: false }`, every other field absent). -/
def defaultSession : SiweSessionData :=
  { address := none, chainId := none, nonce := none,
    isLoggedIn := false, signedInAt := none }

/-- JavaScript truthiness of an optional string: `undefined` and the empty
string are falsy. -/
def strTruthy : Option String → Bool
  | none => false
  | some s => s != ""

/-- JavaScript truthiness of an optional number: `undefined` and `0` are
falsy. -/
def natTruthy : Option Nat → Bool
  | none => false
  | some n => n != 0

/-- String interpolation of an optional string, as JavaScript template
literals render it (`undefined` prints as `"undefined"`). -/
def optStr : Option String → String
  | none => "undefined"
  | some s => s

/-! ## Nonce route (`app/api/siwe/nonce/route.ts`) -/

/-- `GET /api/siwe/nonce`: stores a freshly generated nonce in the session,
resets `isLoggedIn` to `false`, saves, and returns the nonce.  The random
value produced by viem's `generateSiweNonce` is passed in as `nonce`. -/
def nonceGET (session : SiweSessionData) (nonce : String) :
    SiweSessionData × String :=
  ({ session with nonce := some nonce, isLoggedIn := false }, nonce)

/-! ## Session route (`app/api/siwe/session/route.ts`) -/

/-- The JSON shape returned by `GET /api/siwe/session`. -/
structure SessionResponse where
  isLoggedIn : Bool
  address : Option String
  chainId : Option Nat
  signedInAt : Option Nat
deriving Repr, DecidableEq

/-- The serialization of `defaultSession` as returned by the session route:
`{ isLoggedIn: false }` with no identity fields. -/
def defaultSessionResponse : SessionResponse :=
  { isLoggedIn := false, address := none, chainId := none, signedInAt := none }

/-- `GET /api/siwe/session`: returns the authenticated shape when
`session.isLoggedIn && session.address` (JavaScript truthiness), and the
unauthenticated default otherwise.  `load = none` models the `catch`
branch (an error while obtaining the iron session), which also returns the
default shape. -/
def sessionGET (load : Option SiweSessionData) : SessionResponse :=
  match load with
  | none => defaultSessionResponse
  | some session =>
    if session.isLoggedIn && strTruthy session.address then
      { isLoggedIn := true, address := session.address,
        chainId := session.chainId, signedInAt := session.signedInAt }
    else
      defaultSessionResponse

/-- The JSON shape returned by `DELETE /api/siwe/session`. -/
structure DeleteResponse where
  ok : Bool
  error : Option String
deriving Repr, DecidableEq

/-- `DELETE /api/siwe/session`: destroys the session (the cookie is
invalidated, so the next load yields `defaultSession`) and reports
`{ ok: true }`. -/
def sessionDELETE (_session : SiweSessionData) :
    SiweSessionData × DeleteResponse :=
  (defaultSession, { ok := true, error := none })

/-! ## Verify route (`app/api/siwe/verify/route.ts`) -/

/-- The fields of a parsed EIP-4361 message that the verify route reads,
mirroring viem's `parseSiweMessage` result (an object of optional
fields). -/
structure ParsedSiweMessage where
  domain : Option String
  address : Option String
  chainId : Option Nat
  nonce : Option String
  expirationTime : Option Nat
  notBefore : Option Nat
deriving Repr, DecidableEq

/-- Modelled from the spec: viem's `validateSiweMessage`, the protocol
validation half of `verifySiweMessage` (viem is an external dependency,
not part of this repository's sources).  Per spec §4.2 steps 4–7 the
message's domain and nonce must equal the expected values exactly, and the
current time must lie in the half-open window
`[notBefore, expirationTime)`: a message is already invalid when
`now ≥ expirationTime` and still invalid while `now < notBefore`. -/
def validateSiweMessage (m : ParsedSiweMessage) (domain nonce : String)
    (now : Nat) : Bool :=
  m.domain == some domain && m.nonce == some nonce
    && (match m.expirationTime with
        | some t => decide (now < t)
        | none => true)
    && (match m.notBefore with
        | some t => decide (t ≤ now)
        | none => true)

/-- Modelled from the spec: viem's `verifySiweMessage` (external
dependency, not in the sources).  Per spec §4.2 step 8 and the route's own
documentation ("After successful verifySiweMessage, address and chainId
are guaranteed to exist — viem validates all required EIP-4361 fields
during verification"), success requires the required identity fields to be
present, the protocol validation to pass, and the cryptographic signature
check — direct for plain key holders, via the ERC-6492 oracle for
smart-contract accounts — to accept; that last check is abstracted as the
boolean `sigOk`. -/
def verifySiweMessage (sigOk : Bool) (m : ParsedSiweMessage)
    (domain nonce : String) (now : Nat) : Bool :=
  strTruthy m.address && natTruthy m.chainId
    && validateSiweMessage m domain nonce now && sigOk

/-- `getVerificationErrorMessage` from the verify route: recomputes which
check failed first and renders a human-readable diagnosis.  The route
computes `now = new Date()` inside this function; here the current time is
the explicit parameter `now`. -/
def getVerificationErrorMessage (parsedMessage : ParsedSiweMessage)
    (expectedDomain expectedNonce : String) (now : Nat) : String :=
  if parsedMessage.domain != some expectedDomain then
    "Domain mismatch. Expected: " ++ expectedDomain ++ ", Got: "
      ++ optStr parsedMessage.domain
  else if parsedMessage.nonce != some expectedNonce then
    "Nonce mismatch. Please request a new nonce and try again."
  else if (match parsedMessage.expirationTime with
           | some t => decide (t < now)
           | none => false) then
    "Message has expired. Please sign a new message."
  else if (match parsedMessage.notBefore with
           | some t => decide (now < t)
           | none => false) then
    "Message is not yet valid. Please wait and try again."
  else if !(strTruthy parsedMessage.address) then
    "Message is missing required field: address"
  else if !(natTruthy parsedMessage.chainId) then
    "Message is missing required field: chainId"
  else
    "Invalid signature. The message was not signed by the claimed address."

/-- The request body of `POST /api/siwe/verify`.  Values that are absent
or not strings are `none` (the route rejects both identically). -/
structure VerifyRequest where
  message : Option String
  signature : Option String
deriving Repr, DecidableEq

/-- The JSON response of `POST /api/siwe/verify`: either
`{ ok: true, address, chainId, signedInAt }` or
`{ ok: false, error }` together with the HTTP status. -/
inductive VerifyResponse where
  | ok (address : Option String) (chainId : Option Nat) (signedInAt : Nat)
  | err (error : String) (status : Nat)
deriving Repr, DecidableEq

/-- Result of one `POST /api/siwe/verify` call: the response sent to the
client and the session state that is persisted after the call (unchanged
unless the route called `session.save()`). -/
structure VerifyOutcome where
  response : VerifyResponse
  session : SiweSessionData
deriving Repr, DecidableEq

/-- `POST /api/siwe/verify`.  Explicit parameters stand for the route's
environment: `host` is `request.headers.get("host")`, `parse` is viem's
`parseSiweMessage` (`none` models a parse exception), `sigOk` is the
verdict of the cryptographic signature check inside `verifySiweMessage`,
and `now` is the current time (`Date.now()`). -/
def verifyPOST (req : VerifyRequest) (session : SiweSessionData)
    (host : Option String) (parse : String → Option ParsedSiweMessage)
    (sigOk : Bool) (now : Nat) : VerifyOutcome :=
  -- Step 1: request body shape
  if !(strTruthy req.message) then
    { response := .err "Missing or invalid 'message' field. Expected a string." 400,
      session := session }
  else if !(strTruthy req.signature) then
    { response := .err "Missing or invalid 'signature' field. Expected a hex string." 400,
      session := session }
  -- Step 2: stored nonce
  else if !(strTruthy session.nonce) then
    { response := .err "No nonce found in session. Please call GET /api/siwe/nonce first." 400,
      session := session }
  else
    let storedNonce := session.nonce.getD ""
    -- Step 3: parse the SIWE message
    match parse (req.message.getD "") with
    | none =>
      { response := .err "Invalid SIWE message format. Could not parse EIP-4361 message." 400,
        session := session }
    | some parsedMessage =>
      -- Step 4: expected domain from the Host header
      let expectedDomain := host.getD ""
      if expectedDomain == "" then
        { response := .err "Could not determine server domain for verification." 500,
          session := session }
      else
        -- Step 5: verifySiweMessage (validation + signature)
        if !(verifySiweMessage sigOk parsedMessage expectedDomain storedNonce now) then
          { response := .err (getVerificationErrorMessage parsedMessage expectedDomain storedNonce now) 400,
            session := session }
        else
          -- Step 6: promote the session and clear the nonce
          { response := .ok parsedMessage.address parsedMessage.chainId now,
            session :=
              { session with
                address := parsedMessage.address,
                chainId := parsedMessage.chainId,
                isLoggedIn := true,
                signedInAt := some now,
                nonce := none } }

/-! ## Session-secret configuration (`utils/siwe.ts`, `getSessionPassword`) -/

/-- The fixed development fallback secret from `getSessionPassword`. -/
def devFallbackSecret : String :=
  "complex_password_at_least_32_characters_long_for_dev"

/-- The error raised when a provided secret is shorter than 32 characters. -/
def shortSecretError : String :=
  "IRON_SESSION_SECRET must be at least 32 characters long. Generate a secure secret: `openssl rand -base64 32`"

/-- The error raised when no secret is provided in production. -/
def missingSecretError : String :=
  "IRON_SESSION_SECRET environment variable is required in production. Generate a secure 32+ character secret: `openssl rand -base64 32`"

/-- Result of computing the session password at module load time: either a
usable password or a thrown configuration error. -/
inductive ConfigResult where
  | ok (password : String)
  | error (message : String)
deriving Repr, DecidableEq

/-- `getSessionPassword` from `utils/siwe.ts`.  `secret` is
`process.env.IRON_SESSION_SECRET` (`none` when unset) and `isProduction`
is `process.env.NODE_ENV === "production"`.  It runs while building the
module-level `sessionOptions`, i.e. at startup, before any request is
served; a thrown `Error` is a `ConfigResult.error`.  Note the JavaScript
truthiness test `if (secret)`: an empty-string secret takes the
no-secret path. -/
def getSessionPassword (secret : Option String) (isProduction : Bool) :
    ConfigResult :=
  if strTruthy secret then
    let s := secret.getD ""
    if s.length < 32 then .error shortSecretError
    else .ok s
  else if isProduction then .error missingSecretError
  else .ok devFallbackSecret

/-! ## Chain selection (`app/api/siwe/verify/route.ts`) -/

/-- `SUPPORTED_CHAINS` from the verify route, with each viem `Chain`
object represented by its chain id: mainnet, polygon, optimism, arbitrum,
base, gnosis, scroll, zkSync, sepolia, hardhat. -/
def SUPPORTED_CHAINS : List (Nat × Nat) :=
  [(1, 1), (137, 137), (10, 10), (42161, 42161), (8453, 8453),
   (100, 100), (534352, 534352), (324, 324), (11155111, 11155111),
   (31337, 31337)]

/-- The chain id of viem's `mainnet`. -/
def mainnetId : Nat := 1

/-- `getPublicClientForChain` from the verify route, returning the chain
(identified by its id) whose public client is created:
`const chain = chainId ? SUPPORTED_CHAINS[chainId] : mainnet` followed by
`chain || mainnet`.  A falsy `chainId` (absent or `0`) and an unsupported
`chainId` both fall back to mainnet. -/
def getPublicClientForChain (chainId : Option Nat) : Nat :=
  let chain : Option Nat :=
    if natTruthy chainId then List.lookup (chainId.getD 0) SUPPORTED_CHAINS
    else some mainnetId
  chain.getD mainnetId

/-! ## Client hook (`hooks/useSiwe.ts`) -/

/-- JavaScript `String.prototype.toLowerCase` restricted to the
alphanumeric strings used for addresses. -/
def toLowerCase (s : String) : String :=
  ⟨s.data.map Char.toLower⟩

/-- The client-side SIWE state held by the `useSiwe` hook (`SiweState`). -/
structure SiweState where
  address : Option String
  chainId : Option Nat
  isSignedIn : Bool
  isLoading : Bool
  error : Option String
  siweMessage : Option String
  signedInAt : Option Nat
deriving Repr, DecidableEq

/-- The fully signed-out client state that `signOut` installs after a
successful session destruction. -/
def signedOutState : SiweState :=
  { address := none, chainId := none, isSignedIn := false,
    isLoading := false, error := none, siweMessage := none,
    signedInAt := none }

/-- The decision made by the auto-logout effect in `useSiwe`: trigger
`signOut()` when signed in and the live connected address (when both it
and the bound address are available) differs case-insensitively from the
session's address, or when signed in, the wallet reports disconnection,
and the wallet has been observed connected at least once since mount. -/
def shouldAutoSignOut (state : SiweState) (connectedAddress : Option String)
    (isConnected hasSeenWalletConnected : Bool) : Bool :=
  (state.isSignedIn && strTruthy connectedAddress && strTruthy state.address
    && (toLowerCase (connectedAddress.getD "")
          != toLowerCase (state.address.getD "")))
  || (state.isSignedIn && !isConnected && hasSeenWalletConnected)

/-- The client state after `signOut()` resolves: on a confirmed
destruction (`destroyOk = true`) the state is fully reset; on a failed
destruction the state keeps its identity fields and records the error. -/
def signOutClient (state : SiweState) (destroyOk : Bool) : SiweState :=
  if destroyOk then signedOutState
  else { state with isLoading := false, error := some "Failed to sign out" }

/-- One run of the auto-logout reconciliation effect: call `signOut()`
exactly when `shouldAutoSignOut` holds, otherwise leave the state
untouched. -/
def reconcile (state : SiweState) (connectedAddress : Option String)
    (isConnected hasSeenWalletConnected destroyOk : Bool) : SiweState :=
  if shouldAutoSignOut state connectedAddress isConnected hasSeenWalletConnected then
    signOutClient state destroyOk
  else state

/-! ## Reachable session states -/

/-- The session states reachable through the API routes, starting from the
unauthenticated default (a fresh cookie): nonce issuance, verification
(with arbitrary request, environment and time) and session destruction. -/
inductive Reachable : SiweSessionData → Prop where
  | init : Reachable defaultSession
  | nonce (s : SiweSessionData) (n : String) :
      Reachable s → Reachable (nonceGET s n).1
  | verify (s : SiweSessionData) (req : VerifyRequest) (host : Option String)
      (parse : String → Option ParsedSiweMessage) (sigOk : Bool) (now : Nat) :
      Reachable s → Reachable (verifyPOST req s host parse sigOk now).session
  | destroy (s : SiweSessionData) :
      Reachable s → Reachable (sessionDELETE s).1

/-! ## Helper lemmas -/

/-- An absent string is falsy. -/
lemma strTruthy_none : strTruthy none = false := rfl

/-- A truthy optional string is present. -/
lemma strTruthy_isSome (o : Option String) (h : strTruthy o = true) :
    o.isSome := by
  cases o with
  | none => simp [strTruthy] at h
  | some s => rfl

/-- A truthy optional number is present. -/
lemma natTruthy_isSome (o : Option Nat) (h : natTruthy o = true) :
    o.isSome := by
  cases o with
  | none => simp [natTruthy] at h
  | some n => rfl

/-- Exhaustive description of one `verifyPOST` call: either it fails, the
session is untouched and the response is an error, or every guard passed
and the call returns the success response while promoting the session and
clearing the nonce. -/
lemma verifyPOST_cases (req : VerifyRequest) (s : SiweSessionData)
    (host : Option String) (parse : String → Option ParsedSiweMessage)
    (sigOk : Bool) (now : Nat) :
    ((verifyPOST req s host parse sigOk now).session = s ∧
      ∃ e st, (verifyPOST req s host parse sigOk now).response = .err e st) ∨
    (∃ m, parse (req.message.getD "") = some m ∧
      strTruthy req.message = true ∧ strTruthy req.signature = true ∧
      strTruthy s.nonce = true ∧
      verifySiweMessage sigOk m (host.getD "") (s.nonce.getD "") now = true ∧
      verifyPOST req s host parse sigOk now =
        { response := .ok m.address m.chainId now
          session := { s with
            address := m.address
            chainId := m.chainId
            isLoggedIn := true
            signedInAt := some now
            nonce := none } }) := by
  by_cases h1 : strTruthy req.message = true
  case neg =>
    left
    rw [Bool.not_eq_true] at h1
    constructor <;> simp [verifyPOST, h1]
  by_cases h2 : strTruthy req.signature = true
  case neg =>
    left
    rw [Bool.not_eq_true] at h2
    constructor <;> simp [verifyPOST, h1, h2]
  by_cases h3 : strTruthy s.nonce = true
  case neg =>
    left
    rw [Bool.not_eq_true] at h3
    constructor <;> simp [verifyPOST, h1, h2, h3]
  cases hp : parse (req.message.getD "") with
  | none =>
    left
    constructor <;> simp [verifyPOST, h1, h2, h3, hp]
  | some m =>
    by_cases h4 : host.getD "" = ""
    case pos =>
      left
      constructor <;> simp [verifyPOST, h1, h2, h3, hp, h4]
    by_cases h5 : verifySiweMessage sigOk m (host.getD "") (s.nonce.getD "") now = true
    case neg =>
      left
      rw [Bool.not_eq_true] at h5
      constructor <;> simp [verifyPOST, h1, h2, h3, hp, h4, h5]
    right
    exact ⟨m, rfl, h1, h2, h3, h5, by simp [verifyPOST, h1, h2, h3, hp, h4, h5]⟩

/-! ## Concrete fixtures used by witnesses and counterexamples -/

/-- A parsed SIWE message bound to nonce `"n1"`, domain
`localhost:3000`, address `0xAbCd`, chain 1, expiring at time 1000. -/
def exMessage : ParsedSiweMessage :=
  { domain := some "localhost:3000", address := some "0xAbCd", chainId := some 1, nonce := some "n1", expirationTime := some 1000, notBefore := none }

/-- A parse oracle that parses every string to `exMessage`. -/
def exParse : String → Option ParsedSiweMessage := fun _ => some exMessage

/-- A well-formed verify request body. -/
def exRequest : VerifyRequest :=
  { message := some "msg", signature := some "0xsig" }

/-- The session right after nonce issuance on a fresh cookie. -/
def exChallenged : SiweSessionData := (nonceGET defaultSession "n1").1

/-- The Host header of the example deployment. -/
def exHost : Option String := some "localhost:3000"

/-! ## Claims -/

/-- Claim C5: for every `verify` call that fails at any step, the stored
session record is left exactly as it was before the call, so the pending
nonce (like every other field) remains stored and a retry against the
same nonce is possible. -/
theorem C5_failure_leaves_session_unchanged (req : VerifyRequest)
    (s : SiweSessionData) (host : Option String)
    (parse : String → Option ParsedSiweMessage) (sigOk : Bool) (now : Nat)
    (e : String) (st : Nat)
    (h : (verifyPOST req s host parse sigOk now).response = .err e st) :
    (verifyPOST req s host parse sigOk now).session = s := by
  rcases verifyPOST_cases req s host parse sigOk now with
    ⟨hs, _⟩ | ⟨m, _, _, _, _, _, heq⟩
  · exact hs
  · rw [heq] at h
    simp at h

/-- Witness for C5: a concrete failing call (invalid signature) leaves the
challenged session — nonce included — untouched. -/
theorem C5_witness :
    (verifyPOST exRequest exChallenged exHost exParse false 500).session
      = exChallenged :=
  C5_failure_leaves_session_unchanged exRequest exChallenged exHost exParse
    false 500
    "Invalid signature. The message was not signed by the claimed address."
    400 rfl

/-- Claim C1 (amended): after a successful `verify`, replaying the
identical message and signature fails, but the failure reported is the
no-nonce-in-session error (the consumed nonce was cleared, so no pending
challenge exists), not a nonce-mismatch error. -/
theorem C1_replay_rejected_no_nonce (req : VerifyRequest)
    (s : SiweSessionData) (host host2 : Option String)
    (parse parse2 : String → Option ParsedSiweMessage) (sigOk sigOk2 : Bool)
    (now now2 : Nat) (a : Option String) (c : Option Nat) (t : Nat)
    (hok : (verifyPOST req s host parse sigOk now).response = .ok a c t) :
    (verifyPOST req (verifyPOST req s host parse sigOk now).session
        host2 parse2 sigOk2 now2).response =
      .err "No nonce found in session. Please call GET /api/siwe/nonce first." 400 := by
  rcases verifyPOST_cases req s host parse sigOk now with
    ⟨_, e, st, herr⟩ | ⟨m, _, h1, h2, _, _, heq⟩
  · rw [herr] at hok
    simp at hok
  · rw [heq]
    simp [verifyPOST, h1, h2, strTruthy_none]

/-- Counterexample for C1 as stated: on a concrete valid signed message the
first `verify` succeeds, and the replayed second call fails with the
no-nonce-in-session error, which is not the nonce-mismatch error the claim
predicts. -/
theorem C1_counterexample :
    (verifyPOST exRequest exChallenged exHost exParse true 500).response
      = .ok (some "0xAbCd") (some 1) 500 ∧
    (verifyPOST exRequest
        (verifyPOST exRequest exChallenged exHost exParse true 500).session
        exHost exParse true 600).response
      = .err "No nonce found in session. Please call GET /api/siwe/nonce first." 400 ∧
    "No nonce found in session. Please call GET /api/siwe/nonce first." ≠
      "Nonce mismatch. Please request a new nonce and try again." :=
  ⟨rfl, rfl, by decide⟩

/-- Witness for C1: the amended theorem applied to the concrete replay
scenario. -/
theorem C1_witness :
    (verifyPOST exRequest
        (verifyPOST exRequest exChallenged exHost exParse true 500).session
        exHost exParse true 600).response =
      .err "No nonce found in session. Please call GET /api/siwe/nonce first." 400 :=
  C1_replay_rejected_no_nonce exRequest exChallenged exHost exHost exParse
    exParse true true 500 600 (some "0xAbCd") (some 1) 500 rfl

/-- The session after a concrete successful verification. -/
def exLoggedIn : SiweSessionData :=
  (verifyPOST exRequest exChallenged exHost exParse true 500).session

/-- The session after requesting a fresh nonce while logged in. -/
def exStale : SiweSessionData := (nonceGET exLoggedIn "n2").1

/-- Claim C2 (amended): in every reachable session record, if `isLoggedIn`
is true then `address`, `chainId` and `signedInAt` are all set (successful
verification promotes them together with clearing the nonce, and
destruction clears everything together); the converse fails because nonce
issuance forces `isLoggedIn` to false without clearing the identity
fields. -/
theorem C2_loggedIn_fields_present (s : SiweSessionData) (hr : Reachable s)
    (h : s.isLoggedIn = true) :
    s.address.isSome ∧ s.chainId.isSome ∧ s.signedInAt.isSome := by
  induction hr with
  | init =>
    simp [defaultSession] at h
  | nonce s' n _ ih =>
    simp [nonceGET] at h
  | verify s' req host parse sigOk now _ ih =>
    rcases verifyPOST_cases req s' host parse sigOk now with
      ⟨hs, _⟩ | ⟨m, _, _, _, _, h5, heq⟩
    · rw [hs] at h ⊢
      exact ih h
    · rw [heq]
      have hv := h5
      unfold verifySiweMessage at hv
      simp only [Bool.and_eq_true] at hv
      obtain ⟨⟨⟨ha, hc⟩, _⟩, _⟩ := hv
      exact ⟨strTruthy_isSome _ ha, natTruthy_isSome _ hc, rfl⟩
  | destroy s' _ ih =>
    simp [sessionDELETE, defaultSession] at h

/-- Counterexample for C2 as stated: a reachable session (sign in, then
request a fresh nonce) in which `isLoggedIn` is false while `address`,
`chainId` and `signedInAt` are all still set, refuting the if-and-only-if
invariant and the claim that every operation changing `isLoggedIn` updates
all four fields as one unit. -/
theorem C2_counterexample :
    Reachable exStale ∧ exStale.isLoggedIn = false ∧
    exStale.address = some "0xAbCd" ∧ exStale.chainId = some 1 ∧
    exStale.signedInAt = some 500 :=
  ⟨Reachable.nonce exLoggedIn "n2"
      (Reachable.verify exChallenged exRequest exHost exParse true 500
        (Reachable.nonce defaultSession "n1" Reachable.init)),
    rfl, rfl, rfl, rfl⟩

/-- Witness for C2: the amended invariant evaluated on the concrete
logged-in reachable session. -/
theorem C2_witness :
    exLoggedIn.address.isSome ∧ exLoggedIn.chainId.isSome ∧
      exLoggedIn.signedInAt.isSome :=
  C2_loggedIn_fields_present exLoggedIn
    (Reachable.verify exChallenged exRequest exHost exParse true 500
      (Reachable.nonce defaultSession "n1" Reachable.init)) rfl

/-- Claim C3: round trip — after nonce issuance, a message carrying that
nonce, the server's domain and a future expiration time, signed by the
key holder (the signature oracle accepts), verifies successfully with the
message's address and chain id, and an immediate session check reports
`isLoggedIn: true` with the same address, chain id and sign-in time. -/
theorem C3_round_trip (s0 : SiweSessionData) (n msgStr sigStr d a : String)
    (c et now : Nat) (m : ParsedSiweMessage) (host : Option String)
    (parse : String → Option ParsedSiweMessage)
    (hn : n ≠ "") (hm : msgStr ≠ "") (hsig : sigStr ≠ "")
    (hp : parse msgStr = some m)
    (hdom : m.domain = some d) (hhost : host = some d) (hd : d ≠ "")
    (hnonce : m.nonce = some n)
    (haddr : m.address = some a) (ha : a ≠ "")
    (hchain : m.chainId = some c) (hc : c ≠ 0)
    (hexp : m.expirationTime = some et) (hfut : now < et)
    (hnb : m.notBefore = none) :
    (verifyPOST ⟨some msgStr, some sigStr⟩ (nonceGET s0 n).1
        host parse true now).response = .ok (some a) (some c) now ∧
    sessionGET (some (verifyPOST ⟨some msgStr, some sigStr⟩ (nonceGET s0 n).1
        host parse true now).session) =
      { isLoggedIn := true, address := some a, chainId := some c, signedInAt := some now } := by
  subst hhost
  constructor <;>
    simp [verifyPOST, nonceGET, sessionGET, verifySiweMessage,
      validateSiweMessage, strTruthy, natTruthy, hp, hdom, hnonce, haddr,
      hchain, hexp, hnb, hn, hm, hsig, ha, hc, hd, hfut]

/-- Witness for C3: the round trip evaluated on the concrete fixture. -/
theorem C3_witness :
    (verifyPOST ⟨some "msg", some "0xsig"⟩ (nonceGET defaultSession "n1").1
        exHost exParse true 500).response = .ok (some "0xAbCd") (some 1) 500 ∧
    sessionGET (some (verifyPOST ⟨some "msg", some "0xsig"⟩
        (nonceGET defaultSession "n1").1 exHost exParse true 500).session) =
      { isLoggedIn := true, address := some "0xAbCd", chainId := some 1, signedInAt := some 500 } :=
  C3_round_trip defaultSession "n1" "msg" "0xsig" "localhost:3000" "0xAbCd"
    1 1000 500 exMessage exHost exParse (by decide) (by decide) (by decide)
    rfl rfl rfl (by decide) rfl rfl (by decide) rfl (by decide) rfl
    (by decide) rfl

/-- Claim C4 (amended): with a stored matching nonce and matching domain,
a message carrying an expiration time is rejected whenever the current
time is greater than or equal to it, but the expired-message error text is
reported exactly when the current time is strictly greater (at exact
equality the rejection carries the fall-through invalid-signature
diagnosis); the message is accepted as timely only while the current time
lies in the half-open interval from `notBefore` to `expirationTime`. -/
theorem C4_expiry_window (s : SiweSessionData) (req : VerifyRequest)
    (host : Option String) (parse : String → Option ParsedSiweMessage)
    (sigOk : Bool) (now : Nat) (m : ParsedSiweMessage)
    (n msgStr sigStr d : String) (et : Nat)
    (hreq : req = ⟨some msgStr, some sigStr⟩)
    (hm : msgStr ≠ "") (hsig : sigStr ≠ "")
    (hnonceS : s.nonce = some n) (hn : n ≠ "")
    (hp : parse msgStr = some m)
    (hhost : host = some d) (hd : d ≠ "")
    (hdom : m.domain = some d) (hnonce : m.nonce = some n)
    (hexp : m.expirationTime = some et) :
    (et ≤ now →
      (verifyPOST req s host parse sigOk now).response =
        .err (getVerificationErrorMessage m d n now) 400) ∧
    (et < now →
      (verifyPOST req s host parse sigOk now).response =
        .err "Message has expired. Please sign a new message." 400) ∧
    (∀ a c t, (verifyPOST req s host parse sigOk now).response = .ok a c t →
      now < et ∧ ∀ nb, m.notBefore = some nb → nb ≤ now) := by
  subst hreq hhost
  refine ⟨?_, ?_, ?_⟩
  · intro h
    have hnl : ¬ now < et := Nat.not_lt.mpr h
    simp [verifyPOST, verifySiweMessage, validateSiweMessage, strTruthy,
      natTruthy, hp, hnonceS, hdom, hnonce, hexp, hm, hsig, hn, hd, hnl]
  · intro h
    have hnl : ¬ now < et := by omega
    simp [verifyPOST, verifySiweMessage, validateSiweMessage,
      getVerificationErrorMessage, strTruthy, natTruthy, hp, hnonceS,
      hdom, hnonce, hexp, hm, hsig, hn, hd, hnl, h]
  · intro a c t hok
    rcases verifyPOST_cases ⟨some msgStr, some sigStr⟩ s (some d) parse
        sigOk now with ⟨_, e, st, herr⟩ | ⟨m', hp', _, _, _, h5, heq⟩
    · rw [herr] at hok
      simp at hok
    · have hmm : some m = some m' := by
        rw [← hp]
        simpa using hp'
      cases hmm
      unfold verifySiweMessage validateSiweMessage at h5
      simp only [Bool.and_eq_true] at h5
      obtain ⟨⟨⟨-, -⟩, ⟨⟨-, -⟩, hexp1⟩, hnb1⟩, -⟩ := h5
      rw [hexp] at hexp1
      refine ⟨of_decide_eq_true hexp1, ?_⟩
      intro nb hnbs
      rw [hnbs] at hnb1
      exact of_decide_eq_true hnb1

/-- Counterexample for C4 as stated: at the exact expiration instant
(current time equals `expirationTime`, so current time ≥ expirationTime)
the concrete verify call is rejected, but the failure it reports is the
invalid-signature diagnosis, not an expired-message error. -/
theorem C4_counterexample :
    (verifyPOST exRequest exChallenged exHost exParse true 1000).response =
      .err "Invalid signature. The message was not signed by the claimed address." 400 ∧
    "Invalid signature. The message was not signed by the claimed address." ≠
      "Message has expired. Please sign a new message." :=
  ⟨rfl, by decide⟩

/-- Witness for C4: strictly past the expiration time the concrete call
reports the expired-message error. -/
theorem C4_witness :
    (verifyPOST exRequest exChallenged exHost exParse true 1500).response =
      .err "Message has expired. Please sign a new message." 400 :=
  (C4_expiry_window exChallenged exRequest exHost exParse true 1500
    exMessage "n1" "msg" "0xsig" "localhost:3000" 1000 rfl (by decide)
    (by decide) rfl (by decide) rfl rfl (by decide) rfl rfl rfl).2.1
    (by decide)

/-- Claim C6: after a session destruction, a subsequent session check
returns the unauthenticated default shape, and a subsequent well-formed
verify call — the discarded nonce having been cleared — fails with the
no-pending-challenge error (the no-nonce-in-session message). -/
theorem C6_after_destroy (s : SiweSessionData) (req : VerifyRequest)
    (host : Option String) (parse : String → Option ParsedSiweMessage)
    (sigOk : Bool) (now : Nat)
    (hm : strTruthy req.message = true)
    (hsig : strTruthy req.signature = true) :
    sessionGET (some (sessionDELETE s).1) = defaultSessionResponse ∧
    (verifyPOST req (sessionDELETE s).1 host parse sigOk now).response =
      .err "No nonce found in session. Please call GET /api/siwe/nonce first." 400 := by
  constructor
  · simp [sessionGET, sessionDELETE, defaultSession, defaultSessionResponse,
      strTruthy]
  · simp [verifyPOST, sessionDELETE, defaultSession, hm, hsig, strTruthy_none]

/-- Witness for C6: the destroyed concrete session checks out as the
default shape and rejects a replayed verify with the no-nonce error. -/
theorem C6_witness :
    sessionGET (some (sessionDELETE exLoggedIn).1) = defaultSessionResponse ∧
    (verifyPOST exRequest (sessionDELETE exLoggedIn).1 exHost exParse
        true 600).response =
      .err "No nonce found in session. Please call GET /api/siwe/nonce first." 400 :=
  C6_after_destroy exLoggedIn exRequest exHost exParse true 600 rfl rfl

/-- Claim C7: session-secret configuration — a provided (non-empty) secret
shorter than 32 characters makes the startup password computation throw,
a 32+ character secret is accepted, a missing secret throws in production
and falls back to the fixed development key otherwise; in particular a
production deployment with a 16-character secret fails at startup. -/
theorem C7_session_secret (s : String) (isProduction : Bool) (hne : s ≠ "") :
    (s.length < 32 →
      getSessionPassword (some s) isProduction = .error shortSecretError) ∧
    (32 ≤ s.length →
      getSessionPassword (some s) isProduction = .ok s) ∧
    getSessionPassword none true = .error missingSecretError ∧
    getSessionPassword none false = .ok devFallbackSecret ∧
    (s.length = 16 →
      getSessionPassword (some s) true = .error shortSecretError) := by
  refine ⟨?_, ?_, rfl, rfl, ?_⟩
  · intro h
    simp [getSessionPassword, strTruthy, hne, h]
  · intro h
    have h' : ¬ (s.length < 32) := by omega
    simp [getSessionPassword, strTruthy, hne, h']
  · intro h
    have h' : s.length < 32 := by omega
    simp [getSessionPassword, strTruthy, hne, h']

/-- Witness for C7: a concrete 16-character secret fails in production,
no secret fails in production, and no secret falls back in development. -/
theorem C7_witness :
    getSessionPassword (some "0123456789abcdef") true = .error shortSecretError ∧
    getSessionPassword none true = .error missingSecretError ∧
    getSessionPassword none false = .ok devFallbackSecret :=
  ⟨(C7_session_secret "0123456789abcdef" true (by decide)).2.2.2.2 (by decide),
   (C7_session_secret "0123456789abcdef" true (by decide)).2.2.1,
   (C7_session_secret "0123456789abcdef" true (by decide)).2.2.2.1⟩

/-- Claim C9: oracle selection for signature verification — an absent
chain id and a chain id missing from the supported set both select
mainnet's client, and every supported chain id selects the client keyed
by it. -/
theorem C9_oracle_selection :
    getPublicClientForChain none = mainnetId ∧
    (∀ c, List.lookup c SUPPORTED_CHAINS = none →
      getPublicClientForChain (some c) = mainnetId) ∧
    (∀ c v, List.lookup c SUPPORTED_CHAINS = some v →
      getPublicClientForChain (some c) = v) := by
  refine ⟨rfl, ?_, ?_⟩
  · intro c h
    by_cases h0 : c = 0
    · subst h0
      rfl
    · simp [getPublicClientForChain, natTruthy, h0, h]
  · intro c v h
    have h0 : c ≠ 0 := by
      intro h0
      subst h0
      rw [show List.lookup 0 SUPPORTED_CHAINS = none from rfl] at h
      exact Option.noConfusion h
    simp [getPublicClientForChain, natTruthy, h0, h]

/-- Witness for C9: an unsupported chain id falls back to mainnet and a
supported one (Base, 8453) selects its own client. -/
theorem C9_witness :
    getPublicClientForChain (some 999) = mainnetId ∧
    getPublicClientForChain (some 8453) = 8453 :=
  ⟨C9_oracle_selection.2.1 999 rfl, C9_oracle_selection.2.2 8453 8453 rfl⟩

/-- Claim C10: the session check returns the authenticated shape exactly
when the record has `isLoggedIn` true and a truthy address; any other
record — including `isLoggedIn` true with no address — and any load
error produce the unauthenticated default shape. -/
theorem C10_session_check_shape :
    (∀ s : SiweSessionData, s.isLoggedIn = true → strTruthy s.address = true →
      sessionGET (some s) =
        { isLoggedIn := true, address := s.address, chainId := s.chainId, signedInAt := s.signedInAt }) ∧
    (∀ s : SiweSessionData, s.isLoggedIn = false ∨ strTruthy s.address = false →
      sessionGET (some s) = defaultSessionResponse) ∧
    sessionGET none = defaultSessionResponse := by
  refine ⟨?_, ?_, rfl⟩
  · intro s h1 h2
    simp [sessionGET, h1, h2]
  · intro s h
    rcases h with h | h <;> simp [sessionGET, h]

/-- A session record claiming login without an address. -/
def exNoAddress : SiweSessionData :=
  { address := none, chainId := some 1, nonce := none, isLoggedIn := true, signedInAt := some 500 }

/-- Witness for C10: the concrete logged-in session yields the
authenticated shape, and a logged-in record without an address yields the
default shape. -/
theorem C10_witness :
    sessionGET (some exLoggedIn) =
      { isLoggedIn := true, address := some "0xAbCd", chainId := some 1, signedInAt := some 500 } ∧
    sessionGET (some exNoAddress) = defaultSessionResponse :=
  ⟨C10_session_check_shape.1 exLoggedIn rfl rfl,
   C10_session_check_shape.2.1 exNoAddress (Or.inr rfl)⟩

/-- Claim C8 (amended): while signed in, a connected address differing
case-insensitively from the bound address, or a reported disconnection
after the wallet has been observed connected at least once, triggers
`signOut()`; when the session destruction succeeds, the mismatched
signed-in state does not survive the reconciliation cycle (on a failed
destruction the state remains signed in with an error recorded). -/
theorem C8_reconciliation (st : SiweState) (b : String)
    (hsigned : st.isSignedIn = true) (haddr : st.address = some b)
    (hb : b ≠ "") :
    (∀ cAddr isConn hasSeen, cAddr ≠ "" →
      toLowerCase cAddr ≠ toLowerCase b →
      shouldAutoSignOut st (some cAddr) isConn hasSeen = true ∧
      (reconcile st (some cAddr) isConn hasSeen true).isSignedIn = false) ∧
    (∀ cAddr, shouldAutoSignOut st cAddr false true = true ∧
      (reconcile st cAddr false true true).isSignedIn = false) := by
  constructor
  · intro cAddr isConn hasSeen hc hne
    have h1 : shouldAutoSignOut st (some cAddr) isConn hasSeen = true := by
      simp [shouldAutoSignOut, strTruthy, hsigned, haddr, hb, hc, hne]
    exact ⟨h1, by simp [reconcile, h1, signOutClient, signedOutState]⟩
  · intro cAddr
    have h1 : shouldAutoSignOut st cAddr false true = true := by
      simp [shouldAutoSignOut, hsigned]
    exact ⟨h1, by simp [reconcile, h1, signOutClient, signedOutState]⟩

/-- A concrete signed-in client state bound to address `0xAbCd`. -/
def exClientState : SiweState :=
  { address := some "0xAbCd", chainId := some 1, isSignedIn := true, isLoading := false, error := none, siweMessage := none, signedInAt := some 500 }

/-- Counterexample for C8 as stated: with a case-insensitively different
connected address, `signOut()` is triggered, but when the session
destruction fails the state is still signed in after the reconciliation
cycle — so a mismatched signed-in state can persist past one cycle. -/
theorem C8_counterexample :
    shouldAutoSignOut exClientState (some "0xEf12") true true = true ∧
    toLowerCase "0xEf12" ≠ toLowerCase "0xAbCd" ∧
    (reconcile exClientState (some "0xEf12") true true false).isSignedIn = true :=
  ⟨rfl, by decide, rfl⟩

/-- Witness for C8: the amended theorem evaluated on the concrete
mismatch with a successful destruction. -/
theorem C8_witness :
    shouldAutoSignOut exClientState (some "0xEf12") true true = true ∧
    (reconcile exClientState (some "0xEf12") true true true).isSignedIn = false :=
  (C8_reconciliation exClientState "0xAbCd" rfl rfl (by decide)).1 "0xEf12"
    true true (by decide) (by decide)

end ScaffoldSiwe
